import Mathlib

/-!
Verification development for the RAG orchestration layer
(`rag_platform`): a shallow embedding of the retrieval-to-answer
flow (`retrieval/prompting.py`, `retrieval/service.py`,
`retrieval/schemas.py`) and of the ingestion batch classifier and
driver (`ingestion/heavy_router.py`, `ingestion/service.py`),
together with theorems settling the specification claims.

Conventions of the embedding:
* Python `str` is `String`; Python string indices/slices are by code
  point, which matches `List Char` positions obtained via
  `String.toList`.
* `dict.get` chains over the loosely-typed hit payloads are modelled
  by `Option` fields with the same defaulting (`getD`) behaviour.
* Machine floats appear only as Milvus distances (never inspected by
  this layer, carried opaquely) and as the `heavy_size_mb` threshold,
  modelled as `Rat`; `st_size / (1024*1024)` is exact in IEEE double
  for all realistic sizes, so the `Rat` comparison agrees with the
  float comparison.
* Calls to external collaborators (Ollama chat models, the Milvus
  retriever, the nv-ingest client) are oracles passed in explicitly;
  each oracle invocation is recorded in an event trace so that
  "does not invoke X" claims are statable.
* Fallible code paths return `Except String α`.
-/

namespace RagPlatform

/-! ### Python string primitives -/

/-- Characters removed by Python `str.strip()` / `lstrip()` / `rstrip()`
(the ASCII whitespace fragment; the inputs handled by this layer do not
contain the exotic Unicode whitespace Python would also strip). -/
def isPyWhitespace (c : Char) : Bool :=
  c = ' ' || c = '\t' || c = '\n' || c = '\r' || c = '\x0b' || c = '\x0c'

/-- Python `s.lstrip()`. -/
def pyLstrip (s : String) : String :=
  ⟨s.toList.dropWhile isPyWhitespace⟩

/-- Python `s.rstrip()`. -/
def pyRstrip (s : String) : String :=
  ⟨(s.toList.reverse.dropWhile isPyWhitespace).reverse⟩

/-- Python `s.strip()`. -/
def pyStrip (s : String) : String :=
  pyLstrip (pyRstrip s)

/-- Python slice `s[:n]` (by code points). -/
def pyTake (s : String) (n : Nat) : String :=
  ⟨s.toList.take n⟩

/-- Python slice `s[n:]` (by code points). -/
def pyDrop (s : String) (n : Nat) : String :=
  ⟨s.toList.drop n⟩

/-- Whether `needle` occurs as a contiguous substring of `hay`
(Python `needle in hay`). -/
def charsContain (needle : List Char) : List Char → Bool
  | [] => needle.isEmpty
  | c :: rest => needle.isPrefixOf (c :: rest) || charsContain needle rest

/-- Python `needle in hay` on strings. -/
def strContains (hay needle : String) : Bool :=
  charsContain needle.toList hay.toList

/-- Python `s.lower()` (code-point-wise `Char.toLower`; the strings it
is applied to are ASCII). -/
def strToLower (s : String) : String :=
  ⟨s.toList.map Char.toLower⟩

/-- Python `s.startswith(pre)`. -/
def strStartsWith (s pre : String) : Bool :=
  pre.toList.isPrefixOf s.toList

/-- Split a character list on a separator character (semantics of
Python `s.split(sep)` for a one-character separator string). -/
def splitCharsOn (sep : Char) : List Char → List (List Char)
  | [] => [[]]
  | c :: rest =>
    match splitCharsOn sep rest with
    | [] => [[]]
    | g :: gs => if c = sep then [] :: g :: gs else (c :: g) :: gs

/-- Drop characters up to and including the first `:`. -/
def dropThroughFirstColon : List Char → List Char
  | [] => []
  | c :: rest => if c = ':' then rest else dropThroughFirstColon rest

/-- Everything after the first `:` of `s`; Python
`s.split(":", 1)[1]`.  The sole caller guards on the presence of a
colon (via `startswith("answer:")` of the stripped text), so the
out-of-domain result for colon-free input (where Python would raise
`IndexError`) is unreachable and fixed to `""`. -/
def afterFirstColon (s : String) : String :=
  ⟨dropThroughFirstColon s.toList⟩

/-! ### Chunk normalizer and context assembler
(`retrieval/prompting.py`) -/

/-- Milvus distance: a machine float that this layer stores but never
inspects; carried as an exact rational. -/
abbrev Score := Rat

/-- The `entity.source` sub-dict of a retrieval hit. -/
structure SourceInfo where
  source_name : Option String := none
deriving DecidableEq, Repr, Inhabited

/-- The `entity.content_metadata` sub-dict of a retrieval hit. -/
structure ContentMetadata where
  page_number : Option Int := none
deriving DecidableEq, Repr, Inhabited

/-- The `entity` sub-dict of a retrieval hit; `none` models an absent or
`None`-valued key (the code's `h.get("entity", {}) or {}` pattern). -/
structure HitEntity where
  text : Option String := none
  source : Option SourceInfo := none
  content_metadata : Option ContentMetadata := none
deriving DecidableEq, Repr, Inhabited

/-- A raw retrieval hit as consumed by `hits_to_chunks`: only the keys
the code reads are modelled. -/
structure Hit where
  entity : Option HitEntity := none
  distance : Option Score := none
deriving DecidableEq, Repr, Inhabited

/-- A normalized chunk dict `{text, source_name, page_number, score, raw}`. -/
structure Chunk where
  text : String
  source_name : String
  page_number : Option Int
  score : Option Score
  raw : Hit
deriving DecidableEq, Repr

/-- Python `(ent.get("text") or "").strip()` for a hit. -/
def hitText (h : Hit) : String :=
  pyStrip (((h.entity.getD {}).text).getD "")

/-- Python `src.get("source_name", "unknown_source")` for a hit. -/
def hitSourceName (h : Hit) : String :=
  (((h.entity.getD {}).source.getD {}).source_name).getD "unknown_source"

/-- Python `cm.get("page_number", None)` for a hit. -/
def hitPageNumber (h : Hit) : Option Int :=
  ((h.entity.getD {}).content_metadata.getD {}).page_number

/-- The chunk dict appended for one kept hit (the body of the loop in
`hits_to_chunks` after the empty-text guard). -/
def chunkOfHit (maxChars : Nat) (h : Hit) : Chunk :=
  { text := pyTake (hitText h) maxChars
    source_name := hitSourceName h
    page_number := hitPageNumber h
    score := h.distance
    raw := h }

/-- The loop of `hits_to_chunks`, with the `seen` set of source names
threaded through (list membership models set membership). -/
def hitsToChunksGo (maxChars : Nat) (seen : List String) :
    List Hit → List Chunk × List String
  | [] => ([], [])
  | h :: hs =>
    if hitText h = "" then
      hitsToChunksGo maxChars seen hs
    else
      let sn := hitSourceName h
      let rest := hitsToChunksGo maxChars (if sn ∈ seen then seen else sn :: seen) hs
      (chunkOfHit maxChars h :: rest.1,
       if sn ∈ seen then rest.2 else sn :: rest.2)

/-- The function `hits_to_chunks(hits, max_chars)`: returns the normalized chunk
dicts and the deduplicated, first-seen-ordered source names. -/
def hits_to_chunks (hits : List Hit) (maxChars : Nat) :
    List Chunk × List String :=
  hitsToChunksGo maxChars [] hits

/-- The chunk header built inside `stuff_context`:
`[source: X, page: Y]` or `[source: X]`. -/
def chunkHeader (c : Chunk) : String :=
  "[source: " ++ c.source_name ++
    (match c.page_number with
     | some p => ", page: " ++ toString p ++ "]"
     | none => "]")

/-- One `parts` entry of `stuff_context`: header, newline, text. -/
def chunkBlock (c : Chunk) : String :=
  chunkHeader c ++ "\n" ++ c.text

/-- The function `stuff_context(chunks)`: the stuffed context string. -/
def stuff_context (chunks : List Chunk) : String :=
  String.intercalate "\n\n---\n\n" (chunks.map chunkBlock)

/-! ### Language constants (`retrieval/prompting.py`) -/

def MALTESE_LANGUAGE : String := "Maltese"
def MALTESE_CODE : String := "mt"
def ENGLISH_LANGUAGE : String := "English"
def ENGLISH_CODE : String := "en"

/-- The input variables of `GENERIC_TRANSLATE_PROMPT`
(`{SOURCE_LANG} ({SOURCE_CODE})` to `{TARGET_LANG} ({TARGET_CODE})`
translator system prompt plus `{TEXT}` user message). -/
def GENERIC_TRANSLATE_PROMPT_VARS : List String :=
  ["SOURCE_LANG", "SOURCE_CODE", "TARGET_LANG", "TARGET_CODE", "TEXT"]

/-! ### Retrieval service model (`retrieval/service.py`)

The service's external collaborators are modelled as oracles; every
oracle invocation is recorded as an `Event` so that non-invocation
claims are statable.  The two translation chains share one oracle
(`translateModel`), mirroring `self.translate_text`; it receives the
prompt-variable assignment (a key/value list standing for the Python
kwargs dict). -/

/-- One recorded invocation of an external collaborator. -/
inductive Event where
  /-- The `detect_lang` chain (`DETECT_LANG_PROMPT | translator`). -/
  | detectModelCall (text : String)
  /-- The `translate_text` chain (`GENERIC_TRANSLATE_PROMPT | translator`),
  with the variable assignment it was invoked on. -/
  | translateChainCall (inputs : List (String × String))
  /-- The Milvus retriever (`retriever.retrieve([q], top_k)`). -/
  | retrieveCall (query : String) (topK : Nat)
  /-- The generation chain (`PROMPT | llm`), on question and context. -/
  | generateCall (question : String) (context : String)
deriving DecidableEq, Repr

/-- Result of the generation chain: `content` plus the optional
`additional_kwargs["reasoning_content"]` side-channel (a non-string
value of that key behaves like an absent one and is modelled `none`).
When `reasoning=False` the chain ends in `StrOutputParser` and only
`content` is used. -/
structure GenResult where
  content : String
  reasoningContent : Option String := none

/-- The external collaborators of `RetrievalService`. -/
structure Oracles where
  /-- Response text of the language-detector chain. -/
  detectModel : String → String
  /-- Response text of the translator chain, as a function of the
  prompt-variable assignment. -/
  translateModel : List (String × String) → String
  /-- One hit list for one query (`retrieve([q], top_k)[0]`). -/
  retrieve : String → Nat → List Hit
  /-- The RAG generation chain on `{question, context}`. -/
  generate : String → String → GenResult

/-- Error message for a `ChatPromptTemplate` invoked without all of its
input variables (langchain raises `KeyError` while formatting). -/
def PROMPT_VARS_MISSING_ERR : String :=
  "KeyError: missing prompt input variables for GENERIC_TRANSLATE_PROMPT"

/-- Invocation of `self.translate_text` (the
`GENERIC_TRANSLATE_PROMPT | translator | StrOutputParser` chain) on a
variable assignment.  Formatting the template requires every one of
`GENERIC_TRANSLATE_PROMPT_VARS` to be bound; a missing variable raises
before the model is reached, so no event is recorded in that case. -/
def invokeTranslateChain (o : Oracles) (inputs : List (String × String)) :
    Except String String × List Event :=
  if GENERIC_TRANSLATE_PROMPT_VARS.all (fun v => inputs.any (fun kv => kv.1 == v)) then
    (.ok (o.translateModel inputs), [.translateChainCall inputs])
  else
    (.error PROMPT_VARS_MISSING_ERR, [])

/-- The function `is_maltese_heuristic(text)`:
`any(ch in text for ch in ("għ", "ċ", "ġ", "ħ", "ż", "Ċ", "Ġ", "Ħ", "Ż", "GĦ"))`. -/
def is_maltese_heuristic (text : String) : Bool :=
  ["għ", "ċ", "ġ", "ħ", "ż", "Ċ", "Ġ", "Ħ", "Ż", "GĦ"].any
    (fun ch => strContains text ch)

/-- The method `RetrievalService._detect_language`: heuristic first,
model-based fallback second (`out.strip().lower().startswith("mt")`). -/
def detectLanguage (o : Oracles) (query : String) : String × List Event :=
  if is_maltese_heuristic query then
    ("mt", [])
  else
    let out := strToLower (pyStrip (o.detectModel query))
    (if strStartsWith out "mt" then "mt" else "en", [.detectModelCall query])

/-- The method `RetrievalService._query_for_retrieval`: returns
`(query_for_retrieval_in_english, user_lang)`. -/
def queryForRetrieval (o : Oracles) (query : String) :
    Except String (String × String) × List Event :=
  match detectLanguage o query with
  | (lang, ev) =>
    if lang = "mt" then
      match invokeTranslateChain o
        [("TEXT", query),
         ("SOURCE_LANG", MALTESE_LANGUAGE), ("SOURCE_CODE", MALTESE_CODE),
         ("TARGET_LANG", ENGLISH_LANGUAGE), ("TARGET_CODE", ENGLISH_CODE)] with
      | (.ok t, ev2) => (.ok (pyStrip t, "mt"), ev ++ ev2)
      | (.error e, ev2) => (.error e, ev ++ ev2)
    else
      (.ok (query, "en"), ev)

/-! #### The `Sources:` marker search

`re.search(r"(?is)\bSources:\b", answer_text)`: a case-insensitive
leftmost search for `sources:` such that the character before the `S`
(if any) is a non-word character and the character after the `:` is a
word character (`\b` after the non-word `:` demands a word character
next; in particular, at end of string or before a space the pattern
fails).  Word characters are modelled on the ASCII fragment of `\w`. -/

/-- ASCII fragment of the regex word-character class `\w`. -/
def isWordChar (c : Char) : Bool :=
  c.isAlphanum || c = '_'

/-- Whether `\bSources:\b` (case-insensitively) matches at position `i`
of the character list. -/
def markerMatchAt (cs : List Char) (i : Nat) : Bool :=
  (((cs.drop i).take 8).map Char.toLower) = "sources:".toList
    && (i = 0 || !(isWordChar (cs.getD (i - 1) ' ')))
    && isWordChar (cs.getD (i + 8) ' ')

/-- Position of the leftmost match of `re.search(r"(?is)\bSources:\b", s)`
(`m.start()`), if any. -/
def sourcesMarkerPos (s : String) : Option Nat :=
  (List.range s.length).find? (fun i => markerMatchAt s.toList i)

/-- The `answer_part` of `_translate_answer_line_to_maltese`:
text before the marker (or the whole text), right-stripped. -/
def answerPartOf (answer_text : String) : String :=
  match sourcesMarkerPos answer_text with
  | some i => pyRstrip (pyTake answer_text i)
  | none => pyRstrip answer_text

/-- The `sources_part` of `_translate_answer_line_to_maltese`:
text from the marker on, left-stripped (empty when no marker). -/
def sourcesPartOf (answer_text : String) : String :=
  match sourcesMarkerPos answer_text with
  | some i => pyLstrip (pyDrop answer_text i)
  | none => ""

/-- The method `RetrievalService._translate_answer_line_to_maltese`:
split on the `Sources:` marker, translate the `Answer:` body (or, as
fallback, the whole answer part — a call that binds only a `"text"`
variable and therefore fails the template's variable check), reattach
the sources part, and strip. -/
def translateAnswerLineToMaltese (o : Oracles) (answer_text : String) :
    Except String String × List Event :=
  let answer_part := answerPartOf answer_text
  let sources_part := sourcesPartOf answer_text
  if strStartsWith (strToLower (pyStrip answer_part)) "answer:" then
    let body := pyStrip (afterFirstColon answer_part)
    match invokeTranslateChain o
      [("TEXT", body),
       ("SOURCE_LANG", ENGLISH_LANGUAGE), ("SOURCE_CODE", ENGLISH_CODE),
       ("TARGET_LANG", MALTESE_LANGUAGE), ("TARGET_CODE", MALTESE_CODE)] with
    | (.ok t, ev) =>
      let mt_answer_part := "Answer: " ++ pyStrip t
      (.ok (pyStrip (mt_answer_part ++
        (if sources_part ≠ "" then "\n\n" ++ sources_part else ""))), ev)
    | (.error e, ev) => (.error e, ev)
  else
    match invokeTranslateChain o [("text", answer_part)] with
    | (.ok t, ev) =>
      let mt_answer_part := pyStrip t
      (.ok (pyStrip (mt_answer_part ++
        (if sources_part ≠ "" then "\n\n" ++ sources_part else ""))), ev)
    | (.error e, ev) => (.error e, ev)

/-! ### Schemas (`retrieval/schemas.py`) and the main entrypoint -/

/-- `RetrievalResult`: query, chunks, stuffed context. -/
structure RetrievalResult where
  query : String
  chunks : List Chunk
  stuffed_context : String
deriving DecidableEq, Repr

/-- The field values the service passes to the `RAGAnswer` constructor
(before pydantic validation); `reasoning` follows the service's
`Optional[str]` annotation. -/
structure RAGAnswerDraft where
  query : String
  answer : String
  reasoning : Option String
  sources : List String
  retrieval : RetrievalResult
deriving DecidableEq, Repr

/-- The `RAGAnswer` pydantic model as declared in
`retrieval/schemas.py`: the `reasoning` field is a required, non-null
`str`. -/
structure RAGAnswer where
  query : String
  answer : String
  reasoning : String
  sources : List String
  retrieval : RetrievalResult
deriving DecidableEq, Repr

/-- Error message of pydantic rejecting `reasoning=None` for the
required `str` field of `RAGAnswer`. -/
def RAGANSWER_REASONING_NONE_ERR : String :=
  "ValidationError: RAGAnswer.reasoning: none is not an allowed value"

/-- Construction of `RAGAnswer(...)`: pydantic validates the declared
field types, so a `None` value for the non-optional `reasoning: str`
field raises a `ValidationError` instead of producing a model. -/
def ragAnswerValidate (d : RAGAnswerDraft) : Except String RAGAnswer :=
  match d.reasoning with
  | some r => .ok ⟨d.query, d.answer, r, d.sources, d.retrieval⟩
  | none => .error RAGANSWER_REASONING_NONE_ERR

/-- The sentinel answer of the no-context path. -/
def NO_CONTEXT_SENTINEL : String :=
  "I cannot answer this from the provided context."

/-- The method `RetrievalService.answer(query, top_k, max_chars_per_chunk)`.
`reasoningEnabled` is the service's `reasoning` constructor flag.  The
result pairs the outcome (an exception propagating out is `.error`)
with the trace of collaborator invocations. -/
def answerService (o : Oracles) (reasoningEnabled : Bool) (query : String)
    (topK : Nat) (maxCharsPerChunk : Nat) :
    Except String RAGAnswer × List Event :=
  match queryForRetrieval o query with
  | (.error e, ev0) => (.error e, ev0)
  | (.ok (queryEn, userLang), ev0) =>
    let hits := o.retrieve queryEn topK
    let ev1 := ev0 ++ [.retrieveCall queryEn topK]
    let cd := hits_to_chunks hits maxCharsPerChunk
    let chunkDicts := cd.1
    let sources := cd.2
    let stuffed := stuff_context chunkDicts
    let retrieval : RetrievalResult := ⟨query, chunkDicts, stuffed⟩
    if chunkDicts = [] then
      (ragAnswerValidate ⟨query, NO_CONTEXT_SENTINEL, none, sources, retrieval⟩, ev1)
    else
      let result := o.generate queryEn stuffed
      let ev2 := ev1 ++ [.generateCall queryEn stuffed]
      let answer0 := result.content
      let reasoning0 : Option String :=
        if reasoningEnabled then
          match result.reasoningContent with
          | some s => if pyStrip s = "" then none else some (pyStrip s)
          | none => none
        else none
      if userLang = "mt" then
        match translateAnswerLineToMaltese o answer0 with
        | (.ok mtText, ev3) =>
          (ragAnswerValidate ⟨query, mtText, reasoning0, sources, retrieval⟩, ev2 ++ ev3)
        | (.error e, ev3) => (.error e, ev2 ++ ev3)
      else
        (ragAnswerValidate ⟨query, answer0, reasoning0, sources, retrieval⟩, ev2)

/-- The English retrieval query the service computes for `query`
(first component of `_query_for_retrieval`; the error case is
unreachable since the query-translation call binds every template
variable). -/
def queryEnOf (o : Oracles) (query : String) : String :=
  match (queryForRetrieval o query).1 with
  | .ok (q, _) => q
  | .error _ => query

/-! ### Heavy router (`ingestion/heavy_router.py`)

A file on disk is modelled by its path together with the filesystem
facts the router reads: `st_size` and — for PDFs — the page count as
`pypdf` reports it (`none` when the PDF cannot be read). -/

/-- A prepared input file plus the filesystem metadata the heavy
router consults. -/
structure FileMeta where
  path : String
  /-- `p.stat().st_size` in bytes. -/
  sizeBytes : Nat
  /-- Page count `len(PdfReader(p).pages)`, `none` when reading raises. -/
  pdfPages : Option Nat := none
deriving DecidableEq, Repr

/-- Last path component (POSIX `pathlib` `.name`: empty and `.`
components are dropped; drive/anchor handling is not needed here). -/
def pathName (p : String) : String :=
  (((splitCharsOn '/' p.toList).map (fun l => (⟨l⟩ : String))).filter
      (fun c => c ≠ "" && c ≠ ".")).getLast?.getD ""

/-- Index of the last `.` in the character list, if any. -/
def lastDotIdx (cs : List Char) : Option Nat :=
  match cs.reverse.findIdx? (fun c => c = '.') with
  | some r => some (cs.length - 1 - r)
  | none => none

/-- `pathlib` `.suffix` of a file name: the part from the last dot on,
provided that dot is neither the first nor the last character. -/
def pySuffix (name : String) : String :=
  let cs := name.toList
  match lastDotIdx cs with
  | some i => if 0 < i ∧ i + 1 < cs.length then ⟨cs.drop i⟩ else ""
  | none => ""

/-- The expression `Path(f).suffix.lower().lstrip(".")` of
`classify_files_heavy`. -/
def pyExt (p : String) : String :=
  ⟨(strToLower (pySuffix (pathName p))).toList.dropWhile (fun c => c = '.')⟩

/-- The function `file_size_mb(p)`: `st_size / (1024 * 1024)` (exact,
see the module comment on floats). -/
def sizeMB (f : FileMeta) : Rat :=
  (f.sizeBytes : Rat) / (1024 * 1024)

/-- The function `pdf_page_count(p)`: the page count, or `10 ** 9`
("treat as very heavy to be safe") when `pypdf` cannot read the file. -/
def pdf_page_count (f : FileMeta) : Nat :=
  f.pdfPages.getD (10 ^ 9)

/-- The machine-readable rule of a heavy-classification reason dict:
`size_mb>={heavy_size_mb}` or `pdf_pages>={pdf_heavy_pages}` (with the
page count also recorded in the latter).  The dict additionally stores
the rounded `size_mb` diagnostic, which nothing reads back; it is not
modelled. -/
inductive HeavyRule where
  | sizeRule (threshold : Rat)
  | pdfRule (threshold : Nat) (pages : Nat)
deriving DecidableEq, Repr

/-- One entry of the `reasons` list of `classify_files_heavy`. -/
structure HeavyReason where
  file : String
  rule : HeavyRule
deriving DecidableEq, Repr

/-- The function
`classify_files_heavy(files, heavy_size_mb, pdf_heavy_pages)`:
split into `(normal_files, heavy_files, reasons)`.  The size threshold
is checked first and short-circuits the PDF check. -/
def classify_files_heavy (files : List FileMeta)
    (heavy_size_mb : Rat) (pdf_heavy_pages : Nat) :
    List String × List String × List HeavyReason :=
  match files with
  | [] => ([], [], [])
  | f :: fs =>
    let rest := classify_files_heavy fs heavy_size_mb pdf_heavy_pages
    if heavy_size_mb ≤ sizeMB f then
      (rest.1, f.path :: rest.2.1,
       { file := f.path, rule := .sizeRule heavy_size_mb } :: rest.2.2)
    else if pyExt f.path = "pdf" ∧ pdf_heavy_pages ≤ pdf_page_count f then
      (rest.1, f.path :: rest.2.1,
       { file := f.path, rule := .pdfRule pdf_heavy_pages (pdf_page_count f) } :: rest.2.2)
    else
      (f.path :: rest.1, rest.2.1, rest.2.2)

/-- The heavy predicate implicit in `classify_files_heavy`: size
threshold reached, or a PDF whose page count reaches the threshold. -/
def isHeavyFile (f : FileMeta) (heavy_size_mb : Rat) (pdf_heavy_pages : Nat) : Bool :=
  decide (heavy_size_mb ≤ sizeMB f
    ∨ (pyExt f.path = "pdf" ∧ pdf_heavy_pages ≤ pdf_page_count f))

/-- The reason record `classify_files_heavy` appends for a heavy file
(size rule when the size threshold fired, page rule otherwise). -/
def reasonOf (f : FileMeta) (heavy_size_mb : Rat) (pdf_heavy_pages : Nat) : HeavyReason :=
  if heavy_size_mb ≤ sizeMB f then
    { file := f.path, rule := .sizeRule heavy_size_mb }
  else
    { file := f.path, rule := .pdfRule pdf_heavy_pages (pdf_page_count f) }

/-! ### Ingestion batch driver (`ingestion/service.py`) -/

/-- Fuel-indexed body of `chunk_list`; each step consumes at least one
item when `batchSize ≥ 1`, so `items.length` fuel always suffices. -/
def chunkListGo {α : Type} : Nat → List α → Nat → List (List α)
  | 0, _, _ => []
  | _ + 1, [], _ => []
  | fuel + 1, i :: is, batchSize =>
    if batchSize = 0 then []
    else (i :: is).take batchSize :: chunkListGo fuel ((i :: is).drop batchSize) batchSize

/-- The generator `chunk_list(items, batch_size)`: successive slices
`items[i : i + batch_size]`.  (For `batch_size = 0` Python's `range`
would raise `ValueError`; the model returns `[]` there, and every
theorem about batching holds for the meaningful `batch_size ≥ 1`.) -/
def chunk_list {α : Type} (items : List α) (batchSize : Nat) : List (List α) :=
  chunkListGo items.length items batchSize

/-- One per-item failure dict reported by
`ingestor.ingest(return_failures=True)`; the driver reads only
`bf.get("file", "")`. -/
structure BatchFailureRec where
  file : Option String := none
deriving DecidableEq, Repr

/-- One result record returned by the ingestion client (opaque to the
driver, which only counts them). -/
structure IngestResult where
  payload : String := ""
deriving DecidableEq, Repr

/-- Outcome of one `ingestor.ingest(...)` call: results plus per-item
failures, or an exception escaping the client call. -/
inductive IngestOutcome where
  | ok (results : List IngestResult) (failures : List BatchFailureRec)
  | crashed (err : String)
deriving DecidableEq, Repr

/-- The `details` payload of an `IngestionFailure`: either the raw
client failure dict, or the `{error, batch, files_count}` dict built
for a whole-batch exception. -/
inductive FailureDetails where
  | clientFailure (bf : BatchFailureRec)
  | batchException (err : String) (batchIdx : Nat) (filesCount : Nat)
deriving DecidableEq, Repr

/-- `IngestionFailure` of `common/types.py`. -/
structure IngestionFailure where
  file : String
  reason : String
  details : FailureDetails
deriving DecidableEq, Repr

/-- One pass of the batch loop (the `normal`/`heavy` loops of
`ingest_directory` differ only in oracle, crash reason and batch
size).  `ingest idx batch` is the outcome of the client call for the
1-based batch index `idx`; logging and the inter-batch sleep are
effects without data flow and are not modelled. -/
def runPass (ingest : Nat → List String → IngestOutcome) (crashReason : String) :
    Nat → List (List String) → List IngestResult × List IngestionFailure
  | _, [] => ([], [])
  | idx, b :: bs =>
    let step : List IngestResult × List IngestionFailure :=
      match ingest idx b with
      | .ok results bfs =>
        (results,
         bfs.map (fun bf =>
           { file := bf.file.getD "", reason := "nv_ingest_failure",
             details := .clientFailure bf }))
      | .crashed e =>
        ([],
         [{ file := String.intercalate ";" (b.take 10), reason := crashReason,
            details := .batchException e idx b.length }])
    let rest := runPass ingest crashReason (idx + 1) bs
    (step.1 ++ rest.1, step.2 ++ rest.2)

/-- The settings fields `ingest_directory` consumes. -/
structure IngestSettings where
  batch_size_normal : Nat
  batch_size_heavy : Nat
  heavy_size_mb : Rat
  heavy_pdf_pages : Nat
deriving DecidableEq, Repr

/-- `IngestionReport` of `common/types.py` (the wall-clock
`elapsed_seconds` field is a timing effect and is not modelled). -/
structure IngestionReport where
  total_files : Nat
  normal_files : Nat
  heavy_files : Nat
  results_count : Nat
  failures : List IngestionFailure
  heavy_reasons : List HeavyReason
deriving DecidableEq, Repr

/-- The method `IngestionService.ingest_directory`, from the point
where `prepare_files` has produced `files`: classify, run the normal
pass then the heavy pass, and assemble the report.  `ingestNormal` and
`ingestHeavy` are the client-call oracles of the two passes (the two
`_build_ingestor` configurations differ in `extract_infographics`). -/
def ingest_directory (s : IngestSettings) (files : List FileMeta)
    (ingestNormal ingestHeavy : Nat → List String → IngestOutcome) :
    IngestionReport :=
  let cls := classify_files_heavy files s.heavy_size_mb s.heavy_pdf_pages
  let normal_files := cls.1
  let heavy_files := cls.2.1
  let heavy_reasons := cls.2.2
  let np := runPass ingestNormal "exception_normal_batch" 1
    (chunk_list normal_files s.batch_size_normal)
  let hp := runPass ingestHeavy "exception_heavy_batch" 1
    (chunk_list heavy_files s.batch_size_heavy)
  { total_files := files.length
    normal_files := normal_files.length
    heavy_files := heavy_files.length
    results_count := (np.1 ++ hp.1).length
    failures := np.2 ++ hp.2
    heavy_reasons := heavy_reasons }

/-- The file names listed in a failure record's semicolon-joined
`file` field — the files the record "tags". -/
def tagsOf (fileField : String) : List String :=
  (splitCharsOn ';' fileField.toList).map (fun l => (⟨l⟩ : String))

/-- The `user_lang` the service computes for `query` (second component
of `_query_for_retrieval`; the error case is unreachable). -/
def userLangOf (o : Oracles) (query : String) : String :=
  match (queryForRetrieval o query).1 with
  | .ok (_, l) => l
  | .error _ => "en"

/-! ### Concrete fixtures used by witnesses and counterexamples -/

/-- A concrete oracle bundle: the detector model always answers `en`
(so any `mt` detection must come from the heuristic), the translator
model always answers `X`, retrieval returns no hits, and generation
returns a fixed message. -/
def fixtureOracle : Oracles :=
  { detectModel := fun _ => "en"
    translateModel := fun _ => "X"
    retrieve := fun _ _ => []
    generate := fun _ _ => ⟨"Answer: ok\n\nSources: doc_a", some " think "⟩ }

/-- The generation output of the spec's Scenario C. -/
def scenarioCAnswer : String := "Answer: Paris is the capital.\n\nSources: doc_a"

/-- A hit whose raw text has 6 characters but only 2 after stripping. -/
def hitPaddedText : Hit :=
  { entity := some
      { text := some "ab    "
        source := some { source_name := some "doc_a" }
        content_metadata := none }
    distance := none }

/-- A hit with given stripped-nonempty text and source name. -/
def mkSimpleHit (text sourceName : String) : Hit :=
  { entity := some
      { text := some text
        source := some { source_name := some sourceName }
        content_metadata := none }
    distance := none }

/-- Scenario D: a 60 MB file of non-PDF extension. -/
def fileScenarioD : FileMeta :=
  { path := "report.bin", sizeBytes := 60 * 1024 * 1024, pdfPages := none }

/-- An unreadable PDF: a 1 MB file with `.pdf` extension whose page
count cannot be read by `pypdf`. -/
def fileUnreadablePdf : FileMeta :=
  { path := "broken.pdf", sizeBytes := 1024 * 1024, pdfPages := none }

/-- A 1 MB non-PDF file with the given name. -/
def mkSmallFile (name : String) : FileMeta :=
  { path := name, sizeBytes := 1024 * 1024, pdfPages := none }

/-- Five small files — Scenario E's batch. -/
def filesFiveNormal : List FileMeta :=
  [mkSmallFile "f1", mkSmallFile "f2", mkSmallFile "f3",
   mkSmallFile "f4", mkSmallFile "f5"]

/-- Ingestion settings fixture (the defaults of `config/settings.py`). -/
def settingsFixture : IngestSettings :=
  { batch_size_normal := 5, batch_size_heavy := 1,
    heavy_size_mb := 50, heavy_pdf_pages := 80 }

/-- A client oracle whose every call raises. -/
def crashAllIngest : Nat → List String → IngestOutcome :=
  fun _ _ => .crashed "simulated client crash"

/-- An eleven-file batch. -/
def elevenFiles : List String :=
  ["f1", "f2", "f3", "f4", "f5", "f6", "f7", "f8", "f9", "f10", "f11"]

/-- Chunk fixtures for the context assembler. -/
def chunkFixtureA : Chunk := ⟨"t1", "doc_a", some 2, none, {}⟩

def chunkFixtureB : Chunk := ⟨"t2", "doc_b", none, none, {}⟩

/-- The first-seen deduplication described by the spec for the
`sources` list (`seen` is the set of names already emitted); this is
the spec-side definition that `hits_to_chunks` is compared against. -/
def specFirstSeenDedup (seen : List String) : List String → List String
  | [] => []
  | s :: ss =>
    if s ∈ seen then specFirstSeenDedup seen ss
    else s :: specFirstSeenDedup (s :: seen) ss

/-- Decidable equality for `Except`, so that concrete service outcomes
can be checked by `decide`. -/
instance instDecidableEqExcept {ε α : Type} [DecidableEq ε] [DecidableEq α] :
    DecidableEq (Except ε α) := fun x y =>
  match x, y with
  | .ok a, .ok b =>
    if h : a = b then isTrue (by rw [h])
    else isFalse (by intro hc; cases hc; exact h rfl)
  | .error a, .error b =>
    if h : a = b then isTrue (by rw [h])
    else isFalse (by intro hc; cases hc; exact h rfl)
  | .ok _, .error _ => isFalse (by intro hc; cases hc)
  | .error _, .ok _ => isFalse (by intro hc; cases hc)

/-! ## Helper lemmas -/

theorem intercalate_go_append (s : String) :
    ∀ (as : List String) (x y : String),
      String.intercalate.go (x ++ y) s as = x ++ String.intercalate.go y s as := by
  intro as
  induction as with
  | nil => intro x y; rfl
  | cons a as ih =>
    intro x y
    show String.intercalate.go (x ++ y ++ s ++ a) s as
        = x ++ String.intercalate.go (y ++ s ++ a) s as
    rw [String.append_assoc (x ++ y) s a, String.append_assoc x y (s ++ a),
      ih, String.append_assoc y s a]

theorem intercalate_cons_of_ne_nil (s x : String) (xs : List String) (h : xs ≠ []) :
    String.intercalate s (x :: xs) = x ++ s ++ String.intercalate s xs := by
  cases xs with
  | nil => exact absurd rfl h
  | cons y ys =>
    show String.intercalate.go (x ++ s ++ y) s ys
        = x ++ s ++ String.intercalate.go y s ys
    exact intercalate_go_append s ys (x ++ s) y

theorem hitsToChunksGo_fst (mc : Nat) :
    ∀ (hits : List Hit) (seen : List String),
      (hitsToChunksGo mc seen hits).1
        = (hits.filter (fun h => !(hitText h == ""))).map (chunkOfHit mc) := by
  intro hits
  induction hits with
  | nil => intro seen; rfl
  | cons h hs ih =>
    intro seen
    by_cases hh : hitText h = ""
    · simp [hitsToChunksGo, hh, List.filter_cons, ih]
    · simp [hitsToChunksGo, hh, List.filter_cons, ih]

theorem hitsToChunksGo_snd (mc : Nat) :
    ∀ (hits : List Hit) (seen : List String),
      (hitsToChunksGo mc seen hits).2
        = specFirstSeenDedup seen ((hitsToChunksGo mc seen hits).1.map Chunk.source_name) := by
  intro hits
  induction hits with
  | nil => intro seen; rfl
  | cons h hs ih =>
    intro seen
    by_cases hh : hitText h = ""
    · simp [hitsToChunksGo, hh, ih]
    · by_cases hmem : hitSourceName h ∈ seen
      · simpa [hitsToChunksGo, hh, hmem, chunkOfHit, specFirstSeenDedup]
          using ih seen
      · simpa [hitsToChunksGo, hh, hmem, chunkOfHit, specFirstSeenDedup]
          using ih (hitSourceName h :: seen)

theorem specFirstSeenDedup_disjoint_nodup :
    ∀ (l seen : List String),
      (∀ x ∈ specFirstSeenDedup seen l, x ∉ seen) ∧ (specFirstSeenDedup seen l).Nodup := by
  intro l
  induction l with
  | nil => intro seen; simp [specFirstSeenDedup]
  | cons s ss ih =>
    intro seen
    by_cases hs : s ∈ seen
    · constructor
      · simpa [specFirstSeenDedup, hs] using (ih seen).1
      · simpa [specFirstSeenDedup, hs] using (ih seen).2
    · constructor
      · intro x hx
        simp only [specFirstSeenDedup, if_neg hs, List.mem_cons] at hx
        rcases hx with rfl | hx
        · exact hs
        · intro hxseen
          exact (ih (s :: seen)).1 x hx (by simp [hxseen])
      · simp only [specFirstSeenDedup, if_neg hs, List.nodup_cons]
        exact ⟨fun hmem => (ih (s :: seen)).1 s hmem (by simp), (ih (s :: seen)).2⟩

theorem hits_to_chunks_snd_of_fst_nil (hits : List Hit) (mc : Nat)
    (h : (hits_to_chunks hits mc).1 = []) : (hits_to_chunks hits mc).2 = [] := by
  have h2 := hitsToChunksGo_snd mc hits []
  rw [hits_to_chunks] at h ⊢
  rw [h2, h]
  rfl

/-! ## Claim C6 — per-hit truncation to `max_chars` -/

/-- C6, as stated, is false: the claim measures the hit's raw text, but
`hits_to_chunks` strips whitespace before truncating.  At the concrete
input `hitPaddedText` (raw text `"ab    "`, 6 characters) with
`max_chars = 5`, the hit's raw text length exceeds `max_chars`, the hit
does yield a chunk, yet no produced chunk has text of length 5. -/
theorem C6_counterexample :
    (((hitPaddedText.entity.getD {}).text).getD "").length = 6 ∧
    5 < 6 ∧
    (hits_to_chunks [hitPaddedText] 5).1 ≠ [] ∧
    ¬ (∀ c ∈ (hits_to_chunks [hitPaddedText] 5).1, c.text.length = 5) := by
  decide

/-- C6 (amended): for every hits list and `max_chars`, the produced
chunks are exactly one `chunkOfHit` per hit whose *stripped* text is
nonempty (hits with empty or whitespace-only text are skipped and
produce no chunk), and a hit whose stripped text length exceeds
`max_chars` yields a chunk whose text has length exactly `max_chars`
(a hard character cut, no word-boundary adjustment). -/
theorem C6_amended :
    ∀ (hits : List Hit) (mc : Nat),
      (hits_to_chunks hits mc).1
        = (hits.filter (fun h => !(hitText h == ""))).map (chunkOfHit mc) ∧
      (∀ h : Hit, mc < (hitText h).length → ((chunkOfHit mc h).text).length = mc) := by
  intro hits mc
  constructor
  · exact hitsToChunksGo_fst mc hits []
  · intro h hlt
    simp only [chunkOfHit, pyTake, String.length]
    simpa using Nat.min_eq_left (Nat.le_of_lt hlt)

/-- Witness for `C6_amended`: a hit of 6 stripped characters with
`max_chars = 4` yields a 4-character chunk text. -/
theorem C6_amended_witness :
    4 < (hitText (mkSimpleHit "abcdef" "doc_a")).length ∧
    ((chunkOfHit 4 (mkSimpleHit "abcdef" "doc_a")).text).length = 4 :=
  ⟨by decide, (C6_amended [mkSimpleHit "abcdef" "doc_a"] 4).2 _ (by decide)⟩

/-! ## Claim C8 — sources list deduplication -/

/-- C8: the `sources` component of `hits_to_chunks` is the first-seen
deduplication of the produced chunks' source names (so it has no
duplicates), while the chunk list itself is never deduplicated — it
keeps one entry per hit with nonempty stripped text. -/
theorem C8_sources_dedup :
    ∀ (hits : List Hit) (mc : Nat),
      (hits_to_chunks hits mc).2
        = specFirstSeenDedup [] ((hits_to_chunks hits mc).1.map Chunk.source_name) ∧
      ((hits_to_chunks hits mc).2).Nodup ∧
      (hits_to_chunks hits mc).1.length
        = (hits.filter (fun h => !(hitText h == ""))).length := by
  intro hits mc
  refine ⟨hitsToChunksGo_snd mc hits [], ?_, ?_⟩
  · rw [hits_to_chunks, hitsToChunksGo_snd mc hits []]
    exact (specFirstSeenDedup_disjoint_nodup _ []).2
  · rw [hits_to_chunks, hitsToChunksGo_fst mc hits []]
    exact List.length_map _ _

/-! ## Claim C9 — stuffed-context assembly -/

/-- C9: `stuff_context` concatenates, in order, one block per chunk —
header `[source: X, page: Y]` (or `[source: X]` without a page), a
newline, and the chunk text — joining consecutive blocks with the
fixed separator `"\n\n---\n\n"`; it is a pure function of the chunk
sequence. -/
theorem C9_stuff_context_spec :
    stuff_context [] = "" ∧
    (∀ c : Chunk, stuff_context [c] = chunkBlock c) ∧
    (∀ (c : Chunk) (cs : List Chunk), cs ≠ [] →
      stuff_context (c :: cs) = chunkBlock c ++ "\n\n---\n\n" ++ stuff_context cs) ∧
    (∀ (c : Chunk) (p : Int), c.page_number = some p →
      chunkBlock c
        = "[source: " ++ c.source_name ++ ", page: " ++ toString p ++ "]"
            ++ "\n" ++ c.text) ∧
    (∀ c : Chunk, c.page_number = none →
      chunkBlock c = "[source: " ++ c.source_name ++ "]" ++ "\n" ++ c.text) ∧
    (∀ cs ds : List Chunk, cs = ds → stuff_context cs = stuff_context ds) := by
  refine ⟨rfl, fun c => rfl, ?_, ?_, ?_, fun cs ds h => by rw [h]⟩
  · intro c cs h
    have hmap : cs.map chunkBlock ≠ [] := by
      simpa using h
    simpa [stuff_context] using
      intercalate_cons_of_ne_nil "\n\n---\n\n" (chunkBlock c) (cs.map chunkBlock) hmap
  · intro c p hp
    simp [chunkBlock, chunkHeader, hp, String.append_assoc]
  · intro c hp
    simp [chunkBlock, chunkHeader, hp]

/-- Witness for `C9_stuff_context_spec`: the separator recursion and
both header shapes, evaluated on concrete chunks. -/
theorem C9_witness :
    ([chunkFixtureB] ≠ ([] : List Chunk)) ∧
    stuff_context [chunkFixtureA, chunkFixtureB]
      = chunkBlock chunkFixtureA ++ "\n\n---\n\n" ++ stuff_context [chunkFixtureB] ∧
    chunkFixtureA.page_number = some 2 ∧
    chunkBlock chunkFixtureA = "[source: doc_a, page: 2]" ++ "\n" ++ "t1" :=
  ⟨by decide,
   C9_stuff_context_spec.2.2.1 chunkFixtureA [chunkFixtureB] (by decide),
   by decide,
   by
     have := C9_stuff_context_spec.2.2.2.1 chunkFixtureA 2 (by decide)
     simpa [chunkFixtureA] using this⟩

/-! ## Claims C5 and C10 — heavy-file classification -/

theorem classify_files_heavy_eq (heavy_size_mb : Rat) (pdf_heavy_pages : Nat) :
    ∀ files : List FileMeta,
      classify_files_heavy files heavy_size_mb pdf_heavy_pages
        = ((files.filter
              (fun f => !(isHeavyFile f heavy_size_mb pdf_heavy_pages))).map FileMeta.path,
           (files.filter
              (fun f => isHeavyFile f heavy_size_mb pdf_heavy_pages)).map FileMeta.path,
           (files.filter
              (fun f => isHeavyFile f heavy_size_mb pdf_heavy_pages)).map
             (fun f => reasonOf f heavy_size_mb pdf_heavy_pages)) := by
  intro files
  induction files with
  | nil => rfl
  | cons f fs ih =>
    by_cases h1 : heavy_size_mb ≤ sizeMB f
    · have hb : isHeavyFile f heavy_size_mb pdf_heavy_pages = true := by
        simp [isHeavyFile, h1]
      simp [classify_files_heavy, h1, ih, List.filter_cons, hb, reasonOf]
    · by_cases h2 : pyExt f.path = "pdf" ∧ pdf_heavy_pages ≤ pdf_page_count f
      · have hb : isHeavyFile f heavy_size_mb pdf_heavy_pages = true := by
          simp [isHeavyFile, h2]
        simp [classify_files_heavy, h1, h2, ih, List.filter_cons, hb, reasonOf]
      · have hb : isHeavyFile f heavy_size_mb pdf_heavy_pages = false := by
          simp only [isHeavyFile, decide_eq_false_iff_not]
          tauto
        simp [classify_files_heavy, h1, h2, ih, List.filter_cons, hb]

/-- C5, as stated, is false for page thresholds above `10^9`: the code
substitutes page count `10^9` for an unreadable PDF, so with
`pdf_heavy_pages = 10^9 + 1` (and a size below the size threshold) an
unreadable PDF fails the `>=` check and is classified `normal`, not
heavy — refuting the claim's unconditional "classified heavy" at this
concrete input. -/
theorem C5_counterexample :
    pyExt fileUnreadablePdf.path = "pdf" ∧
    fileUnreadablePdf.pdfPages = none ∧
    classify_files_heavy [fileUnreadablePdf] 50 (10 ^ 9 + 1)
      = (["broken.pdf"], [], []) := by
  refine ⟨by decide, rfl, ?_⟩
  have h1 : ¬ ((50 : Rat) ≤ sizeMB fileUnreadablePdf) := by
    norm_num [sizeMB, fileUnreadablePdf]
  have h2 : ¬ (pyExt fileUnreadablePdf.path = "pdf"
      ∧ 10 ^ 9 + 1 ≤ pdf_page_count fileUnreadablePdf) := by
    rintro ⟨-, hle⟩
    norm_num [pdf_page_count, fileUnreadablePdf] at hle
  simp only [classify_files_heavy]
  rw [if_neg h1, if_neg h2]
  rfl

/-- C5 (amended): a single file is classified heavy exactly when its
size in MB reaches `heavy_size_mb` or it is a PDF whose page count
reaches `pdf_heavy_pages`.  The size rule is checked first and
short-circuits the PDF check (so a large file gets the `size_mb>=T`
reason regardless of extension or page count); a PDF whose pages
cannot be read is treated as having page count `10^9` (maximally
heavy) and is therefore classified heavy — without raising — whenever
`pdf_heavy_pages ≤ 10^9`, as in every realistic configuration; every
heavy file carries a machine-readable reason record; every other file
is normal. -/
theorem C5_classify_single (f : FileMeta) (hs : Rat) (hp : Nat) (h9 : hp ≤ 10 ^ 9) :
    (hs ≤ sizeMB f →
      classify_files_heavy [f] hs hp
        = ([], [f.path], [{ file := f.path, rule := .sizeRule hs }])) ∧
    (¬ hs ≤ sizeMB f → pyExt f.path = "pdf" → hp ≤ pdf_page_count f →
      classify_files_heavy [f] hs hp
        = ([], [f.path], [{ file := f.path, rule := .pdfRule hp (pdf_page_count f) }])) ∧
    (pyExt f.path = "pdf" → f.pdfPages = none →
      (classify_files_heavy [f] hs hp).2.1 = [f.path]) ∧
    (¬ hs ≤ sizeMB f → ¬ (pyExt f.path = "pdf" ∧ hp ≤ pdf_page_count f) →
      classify_files_heavy [f] hs hp = ([f.path], [], [])) ∧
    ((classify_files_heavy [f] hs hp).2.1 ≠ []
      ↔ (hs ≤ sizeMB f ∨ (pyExt f.path = "pdf" ∧ hp ≤ pdf_page_count f))) := by
  refine ⟨?_, ?_, ?_, ?_, ?_⟩
  · intro h1
    simp [classify_files_heavy, h1]
  · intro h1 h2 h3
    simp [classify_files_heavy, h1, h2, h3]
  · intro hpdf hunread
    have hpc : pdf_page_count f = 10 ^ 9 := by
      simp [pdf_page_count, hunread]
    have h9n : hp ≤ 1000000000 := by simpa using h9
    by_cases h1 : hs ≤ sizeMB f
    · simp [classify_files_heavy, h1]
    · simp [classify_files_heavy, h1, hpdf, hpc, h9n]
  · intro h1 h2
    simp [classify_files_heavy, h1, h2]
  · by_cases h1 : hs ≤ sizeMB f
    · simp [classify_files_heavy, h1]
    · by_cases h2 : pyExt f.path = "pdf" ∧ hp ≤ pdf_page_count f
      · simp [classify_files_heavy, h1, h2]
      · simp [classify_files_heavy, if_neg h1, if_neg h2]
        refine ⟨lt_of_not_le h1, fun hpdf => ?_⟩
        exact lt_of_not_le (fun hb => h2 ⟨hpdf, hb⟩)

/-- Witness for `C5_classify_single` — the spec's Scenario D: a 60 MB
non-PDF file against `heavy_size_mb = 50` is heavy with the size
reason. -/
theorem C5_witness :
    (50 : Rat) ≤ sizeMB fileScenarioD ∧
    classify_files_heavy [fileScenarioD] 50 80
      = ([], ["report.bin"], [{ file := "report.bin", rule := .sizeRule 50 }]) := by
  have hsize : (50 : Rat) ≤ sizeMB fileScenarioD := by
    norm_num [sizeMB, fileScenarioD]
  exact ⟨hsize, (C5_classify_single fileScenarioD 50 80 (by norm_num)).1 hsize⟩

/-- C10: `classify_files_heavy` is a true partition: the normal and
heavy lists are the input's non-heavy and heavy files in input order,
their lengths sum to the input length, their concatenation is a
permutation of the input paths (so each input occurrence lands in
exactly one list, exactly once), and the reasons align one-to-one, in
order, with the heavy list, each carrying the triggering file's
path. -/
theorem C10_partition (files : List FileMeta) (hs : Rat) (hp : Nat) :
    (classify_files_heavy files hs hp).1
      = (files.filter (fun f => !(isHeavyFile f hs hp))).map FileMeta.path ∧
    (classify_files_heavy files hs hp).2.1
      = (files.filter (fun f => isHeavyFile f hs hp)).map FileMeta.path ∧
    (classify_files_heavy files hs hp).1.length
        + (classify_files_heavy files hs hp).2.1.length
      = files.length ∧
    ((classify_files_heavy files hs hp).1
        ++ (classify_files_heavy files hs hp).2.1).Perm (files.map FileMeta.path) ∧
    (classify_files_heavy files hs hp).2.2.map HeavyReason.file
      = (classify_files_heavy files hs hp).2.1 := by
  have he := classify_files_heavy_eq hs hp files
  have hperm :
      ((files.filter (fun f => !(isHeavyFile f hs hp))).map FileMeta.path
        ++ (files.filter (fun f => isHeavyFile f hs hp)).map FileMeta.path).Perm
        (files.map FileMeta.path) := by
    rw [← List.map_append]
    refine List.Perm.map FileMeta.path ?_
    exact (List.perm_append_comm).trans
      (List.filter_append_perm (fun f => isHeavyFile f hs hp) files)
  refine ⟨?_, ?_, ?_, ?_, ?_⟩
  · rw [he]
  · rw [he]
  · rw [he]
    simpa [List.length_append] using hperm.length_eq
  · rw [he]
    exact hperm
  · rw [he]
    simp only [List.map_map]
    refine List.map_congr_left ?_
    intro f hf
    simp only [Function.comp_apply, reasonOf]
    by_cases h1 : hs ≤ sizeMB f <;> simp [h1]

/-! ## Claim C3 — whole-batch failure isolation -/

theorem runPass_append (ingest : Nat → List String → IngestOutcome)
    (crashReason : String) :
    ∀ (bs1 bs2 : List (List String)) (i : Nat),
      runPass ingest crashReason i (bs1 ++ bs2)
        = ((runPass ingest crashReason i bs1).1
              ++ (runPass ingest crashReason (i + bs1.length) bs2).1,
           (runPass ingest crashReason i bs1).2
              ++ (runPass ingest crashReason (i + bs1.length) bs2).2) := by
  intro bs1
  induction bs1 with
  | nil =>
    intro bs2 i
    simp [runPass]
  | cons b bs ih =>
    intro bs2 i
    have harith : i + 1 + bs.length = i + (bs.length + 1) := by omega
    simp only [List.cons_append, runPass, List.length_cons, List.append_eq]
    rw [ih bs2 (i + 1), harith]
    exact Prod.ext (by simp [List.append_assoc]) (by simp [List.append_assoc])

/-- C3, as stated, is false on batches of more than ten files: a
whole-batch exception produces exactly one failure record, but its
`file` field joins only the first ten files (`";".join(batch[:10])`),
so the eleventh file of the batch is not tagged by the record. -/
theorem C3_counterexample :
    (runPass crashAllIngest "exception_normal_batch" 1 [elevenFiles]).2.length = 1 ∧
    "f11" ∈ elevenFiles ∧
    ¬ (∀ x ∈ elevenFiles,
        ∀ rec ∈ (runPass crashAllIngest "exception_normal_batch" 1 [elevenFiles]).2,
          x ∈ tagsOf rec.file) := by
  decide

/-- C3 (amended): in an ingestion run, a batch whose client call
raises contributes exactly one failure record — reason
`exception_normal_batch`, details carrying the batch index and file
count — whose `file` field joins the batch's first ten file paths (all
of them when the batch has at most ten); the exception does not abort
the run: the failure lists of the preceding batches, the following
batches and the whole heavy pass all still appear in the report. -/
theorem C3_batch_isolation (s : IngestSettings) (files : List FileMeta)
    (ingestNormal ingestHeavy : Nat → List String → IngestOutcome)
    (bs1 : List (List String)) (b : List String) (bs2 : List (List String))
    (err : String)
    (hbatches :
      chunk_list (classify_files_heavy files s.heavy_size_mb s.heavy_pdf_pages).1
          s.batch_size_normal
        = bs1 ++ b :: bs2)
    (hcrash : ingestNormal (1 + bs1.length) b = .crashed err) :
    (ingest_directory s files ingestNormal ingestHeavy).failures
      = (runPass ingestNormal "exception_normal_batch" 1 bs1).2
        ++ [{ file := String.intercalate ";" (b.take 10),
              reason := "exception_normal_batch",
              details := .batchException err (1 + bs1.length) b.length }]
        ++ (runPass ingestNormal "exception_normal_batch" (1 + bs1.length + 1) bs2).2
        ++ (runPass ingestHeavy "exception_heavy_batch" 1
              (chunk_list
                (classify_files_heavy files s.heavy_size_mb s.heavy_pdf_pages).2.1
                s.batch_size_heavy)).2 := by
  simp only [ingest_directory, hbatches]
  rw [runPass_append ingestNormal "exception_normal_batch" bs1 (b :: bs2) 1]
  simp only [runPass, hcrash]
  simp [List.append_assoc]

/-- Witness for `C3_batch_isolation` — the spec's Scenario E: a batch
of five files whose client call raises yields exactly one failure
record covering all five files, and the run completes. -/
theorem C3_witness :
    chunk_list
        (classify_files_heavy filesFiveNormal settingsFixture.heavy_size_mb
          settingsFixture.heavy_pdf_pages).1
        settingsFixture.batch_size_normal
      = [] ++ ["f1", "f2", "f3", "f4", "f5"] :: [] ∧
    crashAllIngest 1 ["f1", "f2", "f3", "f4", "f5"]
      = .crashed "simulated client crash" ∧
    (ingest_directory settingsFixture filesFiveNormal crashAllIngest
        crashAllIngest).failures
      = [{ file := "f1;f2;f3;f4;f5",
           reason := "exception_normal_batch",
           details := .batchException "simulated client crash" 1 5 }] := by
  have hlight : ∀ name : String, pyExt name ≠ "pdf" →
      isHeavyFile (mkSmallFile name) 50 80 = false := by
    intro name hn
    simp only [isHeavyFile, decide_eq_false_iff_not]
    rintro (h | ⟨hpdf, -⟩)
    · revert h
      norm_num [sizeMB, mkSmallFile]
    · exact hn hpdf
  have hpath : ∀ name : String, (mkSmallFile name).path = name := fun _ => rfl
  have hcls : classify_files_heavy filesFiveNormal 50 80
      = (["f1", "f2", "f3", "f4", "f5"], [], []) := by
    rw [classify_files_heavy_eq]
    simp [filesFiveNormal, List.filter_cons, hpath,
      hlight "f1" (by decide), hlight "f2" (by decide), hlight "f3" (by decide),
      hlight "f4" (by decide), hlight "f5" (by decide)]
  have hb :
      chunk_list
          (classify_files_heavy filesFiveNormal settingsFixture.heavy_size_mb
            settingsFixture.heavy_pdf_pages).1
          settingsFixture.batch_size_normal
        = [] ++ ["f1", "f2", "f3", "f4", "f5"] :: [] := by
    show chunk_list (classify_files_heavy filesFiveNormal 50 80).1 5 = _
    rw [hcls]
    rfl
  have hc : crashAllIngest 1 ["f1", "f2", "f3", "f4", "f5"]
      = .crashed "simulated client crash" := rfl
  refine ⟨hb, hc, ?_⟩
  have h := C3_batch_isolation settingsFixture filesFiveNormal crashAllIngest
    crashAllIngest [] ["f1", "f2", "f3", "f4", "f5"] [] "simulated client crash" hb hc
  have hheavy :
      chunk_list
          (classify_files_heavy filesFiveNormal settingsFixture.heavy_size_mb
            settingsFixture.heavy_pdf_pages).2.1
          settingsFixture.batch_size_heavy = [] := by
    show chunk_list (classify_files_heavy filesFiveNormal 50 80).2.1 1 = _
    rw [hcls]
    rfl
  rw [h, hheavy]
  rfl

/-! ## Claim C7 — the Maltese heuristic is authoritative -/

/-- C7: for every query containing a Maltese-only letter (any needle of
`is_maltese_heuristic`), `_detect_language` returns `mt` with an empty
collaborator trace — the model-based fallback classifier is not
invoked, so it can never override the heuristic. -/
theorem C7_heuristic_authoritative (o : Oracles) (q : String)
    (h : is_maltese_heuristic q = true) :
    detectLanguage o q = ("mt", []) := by
  simp [detectLanguage, h]

/-- Witness for `C7_heuristic_authoritative`: a query containing `ċ`,
against an oracle whose detector model always answers `en` — the
heuristic still wins and the model is not called. -/
theorem C7_witness :
    is_maltese_heuristic "Liema hija l-belt kapitali ċentrali?" = true ∧
    detectLanguage fixtureOracle "Liema hija l-belt kapitali ċentrali?" = ("mt", []) :=
  ⟨by decide, C7_heuristic_authoritative fixtureOracle _ (by decide)⟩

/-! ## Claim C2 — the no-`Answer:`-label fallback -/

/-- C2 is a code bug: when no `Answer:` label is found, the fallback
invokes the translation chain with `{"text": answer_part}`, but
`GENERIC_TRANSLATE_PROMPT` requires the variables `TEXT`,
`SOURCE_LANG`, `SOURCE_CODE`, `TARGET_LANG`, `TARGET_CODE`; formatting
therefore raises a `KeyError` before the translator model is reached
(empty trace), instead of translating the body segment. -/
theorem C2_fallback_keyerror (o : Oracles) (t : String)
    (h : strStartsWith (strToLower (pyStrip (answerPartOf t))) "answer:" = false) :
    translateAnswerLineToMaltese o t = (.error PROMPT_VARS_MISSING_ERR, []) := by
  simp [translateAnswerLineToMaltese, h, invokeTranslateChain,
    GENERIC_TRANSLATE_PROMPT_VARS]

/-- Witness for `C2_fallback_keyerror`: a generation output with no
`Answer:` label makes the back-translation raise. -/
theorem C2_witness :
    strStartsWith (strToLower (pyStrip (answerPartOf "The capital is Paris.")))
        "answer:" = false ∧
    translateAnswerLineToMaltese fixtureOracle "The capital is Paris."
      = (.error PROMPT_VARS_MISSING_ERR, []) :=
  ⟨by decide, C2_fallback_keyerror fixtureOracle _ (by decide)⟩

/-! ## Claim C4 — preservation of the `Sources:` segment -/

/-- C4 is a code bug, shown on the spec's own Scenario C input: the
regex `\bSources:\b` requires a word character immediately after the
colon, so on `"Answer: Paris is the capital.\n\nSources: doc_a"` (space
after the colon) no marker is found; the sources part is empty, the
whole text — including the `Sources: doc_a` line — becomes the body
sent to the translation chain, and with a translator returning `"X"`
the final output `"Answer: X"` has lost the sources segment instead of
preserving it byte-for-byte. -/
theorem C4_sources_segment_bug :
    sourcesMarkerPos scenarioCAnswer = none ∧
    answerPartOf scenarioCAnswer = scenarioCAnswer ∧
    sourcesPartOf scenarioCAnswer = "" ∧
    (translateAnswerLineToMaltese fixtureOracle scenarioCAnswer).1 = .ok "Answer: X" ∧
    (translateAnswerLineToMaltese fixtureOracle scenarioCAnswer).2
      = [.translateChainCall
          [("TEXT", "Paris is the capital.\n\nSources: doc_a"),
           ("SOURCE_LANG", "English"), ("SOURCE_CODE", "en"),
           ("TARGET_LANG", "Maltese"), ("TARGET_CODE", "mt")]] ∧
    strContains "Answer: X" "Sources: doc_a" = false := by
  decide

/-! ## Claim C1 — the no-context path of `answer()` -/

theorem detectLanguage_snd (o : Oracles) (q : String) :
    (detectLanguage o q).2 = [] ∨ (detectLanguage o q).2 = [.detectModelCall q] := by
  by_cases hq : is_maltese_heuristic q
  · left; simp [detectLanguage, hq]
  · right; simp [detectLanguage, hq]

theorem queryForRetrieval_isOk (o : Oracles) (q : String) :
    ∃ p, (queryForRetrieval o q).1 = .ok p := by
  rcases hd : detectLanguage o q with ⟨lang, ev⟩
  by_cases hl : lang = "mt"
  · refine ⟨(pyStrip (o.translateModel
      [("TEXT", q),
       ("SOURCE_LANG", MALTESE_LANGUAGE), ("SOURCE_CODE", MALTESE_CODE),
       ("TARGET_LANG", ENGLISH_LANGUAGE), ("TARGET_CODE", ENGLISH_CODE)]), "mt"), ?_⟩
    simp [queryForRetrieval, hd, hl, invokeTranslateChain,
      GENERIC_TRANSLATE_PROMPT_VARS]
  · exact ⟨(q, "en"), by simp [queryForRetrieval, hd, hl]⟩

theorem queryForRetrieval_no_generate (o : Oracles) (q a b : String) :
    Event.generateCall a b ∉ (queryForRetrieval o q).2 := by
  rcases hd : detectLanguage o q with ⟨lang, ev⟩
  have hev : Event.generateCall a b ∉ ev := by
    rcases detectLanguage_snd o q with h | h <;> rw [hd] at h <;> simp at h <;>
      subst h <;> simp
  by_cases hl : lang = "mt"
  · simp [queryForRetrieval, hd, hl, invokeTranslateChain,
      GENERIC_TRANSLATE_PROMPT_VARS, hev]
  · simp [queryForRetrieval, hd, hl, hev]

/-- C1 concerns a code bug: on the no-context path the service builds
the sentinel record `{answer := "I cannot answer this from the
provided context.", sources := [], reasoning := None}` without
invoking the generation model, but the `RAGAnswer` schema declares
`reasoning: str` (not `Optional[str]`), so pydantic rejects the `None`
and `answer()` raises a `ValidationError` instead of returning that
record.  For every oracle bundle and query whose retrieval hits
normalize to an empty chunk list: the sources list is empty, the trace
contains no generation call, the intended sentinel record is exactly
the one the schema rejects, and the call errors. -/
theorem C1_no_context (o : Oracles) (flag : Bool) (q : String) (k mc : Nat)
    (hempty : (hits_to_chunks (o.retrieve (queryEnOf o q) k) mc).1 = []) :
    (answerService o flag q k mc).1 = .error RAGANSWER_REASONING_NONE_ERR ∧
    (hits_to_chunks (o.retrieve (queryEnOf o q) k) mc).2 = [] ∧
    (∀ a b : String, Event.generateCall a b ∉ (answerService o flag q k mc).2) ∧
    ragAnswerValidate
        ⟨q, NO_CONTEXT_SENTINEL, none, [], ⟨q, [], stuff_context []⟩⟩
      = .error RAGANSWER_REASONING_NONE_ERR := by
  obtain ⟨⟨x, l⟩, hx⟩ := queryForRetrieval_isOk o q
  rcases hq2 : queryForRetrieval o q with ⟨res, ev0⟩
  rw [hq2] at hx
  simp only [] at hx
  subst hx
  have hqe : queryEnOf o q = x := by simp [queryEnOf, hq2]
  rw [hqe] at hempty
  have hsnd : (hits_to_chunks (o.retrieve x k) mc).2 = [] :=
    hits_to_chunks_snd_of_fst_nil _ _ hempty
  refine ⟨?_, by rw [hqe]; exact hsnd, ?_, rfl⟩
  · simp [answerService, hq2, hempty, hsnd, ragAnswerValidate]
  · intro a b
    have hno := queryForRetrieval_no_generate o q a b
    rw [hq2] at hno
    simp only [] at hno
    simp [answerService, hq2, hempty, hno]

/-- Witness for `C1_no_context`: retrieval returns no hits for the
Scenario B query, and `answer()` ends in the schema validation
error. -/
theorem C1_witness :
    (hits_to_chunks (fixtureOracle.retrieve
        (queryEnOf fixtureOracle "What is the capital of France?") 3) 1200).1 = [] ∧
    (answerService fixtureOracle true "What is the capital of France?" 3 1200).1
      = .error RAGANSWER_REASONING_NONE_ERR :=
  ⟨by decide,
   (C1_no_context fixtureOracle true "What is the capital of France?" 3 1200
      (by decide)).1⟩

end RagPlatform
